import Mathlib

/-!
Verification of the Shortify URL shortener (shortify/app) against its
specification.  The definitions below are a shallow embedding of the Python
source: MongoDB collections become lists of records, `datetime` values become
integer timestamps (seconds), randomness (identifier generation, ObjectId
generation) becomes explicit input parameters, and HTTP failure responses
become explicit result constructors.
-/

namespace Shortify

/-- A stored user record (collection `users`).  Fields restricted to the ones
the code under verification reads: `id` (the Mongo `_id`), the capability
flags `is_active` / `is_superuser`, and the optional static API key. -/
structure User where
  id : Nat
  is_active : Bool
  is_superuser : Bool
  api_key : Option String
deriving Repr, DecidableEq

/-- A stored short-url record (collection `urls`), after
`shortify/app/models/url.py` class `ShortUrl`: the Mongo `_id`, the random
identifier `ident` (unique index), the optional `external_id` (partial unique
index), the `origin` URL string, the `views` counter, and the timestamp
fields.  Timestamps are integers (seconds); `none` is a Mongo `null`. -/
structure ShortUrl where
  id : Nat
  ident : String
  external_id : Option String
  origin : String
  views : Nat
  created_at : Int
  updated_at : Option Int
  expires_at : Option Int
  last_visit_at : Option Int
  user_id : Option Nat
deriving Repr, DecidableEq

/-- Insertion into the `urls` collection.  The collection has a unique index
on `ident` and a partial unique index on `external_id` (only documents where
`external_id` is a string participate), so an insert whose `ident` or set
`external_id` already occurs fails with a duplicate-key error; otherwise the
document is appended. -/
def insertUrl (store : List ShortUrl) (rec : ShortUrl) :
    Except Unit (ShortUrl × List ShortUrl) :=
  if store.any (fun r => r.ident == rec.ident)
      || (rec.external_id.isSome && store.any (fun r => r.external_id == rec.external_id)) then
    .error ()
  else
    .ok (rec, store ++ [rec])

/-- `ShortUrl.shorten` (models/url.py): construct a document with the freshly
generated identifier (`generate_ident`, modelled by the `ident` input), the
freshly generated ObjectId (modelled by the `id` input), `origin` set to the
url's encoded string, `views` defaulting to 0, `created_at` defaulting to the
current time, and insert it once.  No retry surrounds the insert: a
duplicate-key error propagates to the caller. -/
def ShortUrl.shorten (store : List ShortUrl) (id : Nat) (ident : String)
    (url : String) (external_id : Option String) (expires_at : Option Int)
    (user_id : Option Nat) (now : Int) :
    Except Unit (ShortUrl × List ShortUrl) :=
  insertUrl store
    { id := id
      ident := ident
      external_id := external_id
      origin := url
      views := 0
      created_at := now
      updated_at := none
      expires_at := expires_at
      last_visit_at := none
      user_id := user_id }

/-- The Mongo comparison `expires_at > now` used by the expiry-checked lookup:
a `$gt` query with a date operand matches only documents whose field holds a
date strictly greater than the operand; a document whose `expires_at` is
`null` (unset) does not match. -/
def expiresAtGt (r : ShortUrl) (now : Int) : Bool :=
  match r.expires_at with
  | some t => decide (now < t)
  | none => false

/-- `ShortUrl.get_by_ident` (models/url.py): `find_one` on the `ident` field;
when `is_check_expires_at` is set the query additionally requires
`expires_at > now`. -/
def ShortUrl.get_by_ident (store : List ShortUrl) (ident : String)
    (is_check_expires_at : Bool) (now : Int) : Option ShortUrl :=
  if is_check_expires_at then
    store.find? (fun r => r.ident == ident && expiresAtGt r now)
  else
    store.find? (fun r => r.ident == ident)

/-- `ShortUrl.visit` (models/url.py): increment the instance's `views` by one
and set `last_visit_at` to the current time, then persist the changed fields
(`save_changes`); no other field is touched. -/
def ShortUrl.visit (s : ShortUrl) (now : Int) : ShortUrl :=
  { s with
      views := s.views + 1
      last_visit_at := some now }

/-- Folding `ShortUrl.visit` over a list of visit times: one resolution per
element. -/
def ShortUrl.visitMany (s : ShortUrl) (times : List Int) : ShortUrl :=
  times.foldl ShortUrl.visit s

/-! ## Token issuance (shortify/app/core/security.py, core/config.py) -/

/-- `Settings.ACCESS_TOKEN_EXPIRE_MINUTES` (core/config.py): default
`60 * 24 * 1`, annotated in the source as "60 minutes * 24 hours * 1 = 1 day". -/
def ACCESS_TOKEN_EXPIRE_MINUTES : Int := 60 * 24 * 1

/-- Seconds in one Python `datetime.timedelta(x)`: the FIRST positional
argument of `timedelta` is a count of DAYS, so `timedelta(x)` spans
`x * 86400` seconds. -/
def timedeltaOfDays (days : Int) : Int := days * 86400

/-- The `exp` timestamp embedded by `create_access_token` (security.py):
`now + expires_delta` when a delta is passed (the delta given in seconds),
otherwise `now + timedelta(settings.ACCESS_TOKEN_EXPIRE_MINUTES)` - the
setting's value is handed to `timedelta` positionally, i.e. as days. -/
def create_access_token_exp (now : Int) (expires_delta : Option Int) : Int :=
  match expires_delta with
  | some d => now + d
  | none => now + timedeltaOfDays ACCESS_TOKEN_EXPIRE_MINUTES

/-! ## Principal resolver (shortify/app/api/v1/deps.py)

Bearer-token decoding (`jose.jwt.decode` with signature and expiry checks,
then the `AuthTokenPayload` validation) is modelled by a `decode` oracle:
`decode token = some sub` when the token is validly signed, unexpired and
carries subject `sub`; `none` when decoding or validation raises. -/

/-- `User.get` : Mongo `_id` lookup in the user store. -/
def User.get (users : List User) (id : Nat) : Option User :=
  users.find? (fun u => u.id == id)

/-- `User.get_by_api_key` : lookup by the stored static API key. -/
def User.get_by_api_key (users : List User) (key : String) : Option User :=
  users.find? (fun u => u.api_key == some key)

/-- Outcome of the principal resolver: a principal, or one of the failure
responses raised in deps.py (403 "Not authenticated", 403 "Invalid API key",
404 "User not found", 403 "Could not validate credentials"). -/
inductive AuthResult where
  | ok (u : User)
  | notAuthenticated
  | invalidApiKey
  | userNotFound
  | couldNotValidate
deriving Repr, DecidableEq

/-- `authenticate_bearer_token` (deps.py): decode the JWT; on
`JWTError`/`ValidationError` raise 403 (modelled as `.error`), otherwise look
the payload's subject up in the user store (which may yield no user). -/
def authenticate_bearer_token (users : List User) (decode : String → Option Nat)
    (token : String) : Except Unit (Option User) :=
  match decode token with
  | none => .error ()
  | some sub => .ok (User.get users sub)

/-- `get_current_user` (deps.py).  The two header values arrive as
`Option String` (`auto_error=False` yields `None` when absent); Python tests
them for truthiness, under which an empty string behaves like an absent
header, modelled by the normalisation in the two `let`s.  An api key present:
look it up and on a miss answer "Invalid API key" - the bearer token is never
consulted.  Only otherwise is the token used; neither present is
"Not authenticated"; a decoded token whose subject matches no user is
"User not found". -/
def get_current_user (users : List User) (decode : String → Option Nat)
    (api_key : Option String) (token : Option String) : AuthResult :=
  let api_key := if api_key == some "" then none else api_key
  let token := if token == some "" then none else token
  match api_key with
  | some k =>
    match User.get_by_api_key users k with
    | some u => .ok u
    | none => .invalidApiKey
  | none =>
    match token with
    | some t =>
      match authenticate_bearer_token users decode t with
      | .error _ => .couldNotValidate
      | .ok (some u) => .ok u
      | .ok none => .userNotFound
    | none => .notAuthenticated

/-! ## Update operations (api/v1/endpoints/urls.py and admin/router.py) -/

/-- `SuperuserViews._update_short_url` (endpoints/urls.py).  The payload is
serialised with `exclude_unset`, so each field is `some v` when the client
supplied it and `none` when it was left unset; a supplied field is written
through to the record (`url` as its string form into `origin`, `external_id`
and `expires_at` as given, possibly explicit nulls).  `updated_at` is then
set to the current time unconditionally, and the record saved. -/
def update_short_url (s : ShortUrl) (url : Option String)
    (external_id : Option (Option String)) (expires_at : Option (Option Int))
    (now : Int) : ShortUrl :=
  let s := match url with
    | some u => { s with origin := u }
    | none => s
  let s := match external_id with
    | some e => { s with external_id := e }
    | none => s
  let s := match expires_at with
    | some e => { s with expires_at := e }
    | none => s
  { s with updated_at := some now }

/-- Field assignments performed by the admin `url_update` handler
(admin/router.py) on the record it found: `origin` is overwritten with the
form value; `external_id` becomes `external_id or None` (an empty form string
collapses to null); the `expires_at` form field is modelled after parsing as
`none` = absent/empty (field set to null), `some (some t)` = parsed datetime
(field set to it), `some none` = unparseable (ValueError suppressed, field
unchanged).  `updated_at` is not assigned. -/
def url_update_record (s : ShortUrl) (origin : String)
    (external_id : Option String) (expires_at : Option (Option Int)) : ShortUrl :=
  let s := { s with origin := origin }
  let s := { s with
    external_id := match external_id with
      | some e => if e == "" then none else some e
      | none => none }
  match expires_at with
  | none => { s with expires_at := none }
  | some (some t) => { s with expires_at := some t }
  | some none => s

/-! ## Admin mutation endpoints (shortify/app/admin/router.py)

The admin page views (`dashboard`, `list_users`, `list_urls`, `url_detail`,
`setup_totp_*`) declare the `CurrentAdminUser` dependency
(`get_current_admin_user` in admin/deps.py: access_token cookie decoded, user
looked up, `is_active` and `is_superuser` required).  The four mutation
handlers below declare NO dependency, so FastAPI invokes their bodies for
every request; each `serve_*` wrapper takes the request's access_token cookie
(`cred`) to make that explicit: the cookie is never consulted. -/

/-- `get_current_admin_user` (admin/deps.py): require an access_token cookie
that decodes to the subject of a stored, active superuser; every other
request raises `AdminAuthError` (modelled as `.error`). -/
def get_current_admin_user (users : List User) (decode : String → Option Nat)
    (cookie : Option String) : Except Unit User :=
  match cookie with
  | none => .error ()
  | some token =>
    match decode token with
    | none => .error ()
    | some sub =>
      match User.get users sub with
      | none => .error ()
      | some u =>
        if !u.is_active || !u.is_superuser then .error () else .ok u

/-- Body of `delete_user` (admin/router.py): fetch the user by id and, when
found, delete it; then redirect. -/
def delete_user (users : List User) (user_id : Nat) : List User :=
  match User.get users user_id with
  | none => users
  | some u => users.filter (fun x => !(x == u))

/-- Request-level behaviour of `POST /admin/users/delete/...`: the handler
declares no authentication dependency, so its body runs whatever credential
(`cred`, the access_token cookie) the request carries, including none. -/
def serve_delete_user (cred : Option String) (users : List User)
    (user_id : Nat) : List User :=
  delete_user users user_id

/-- Body of `batch_delete_urls` (admin/router.py): the posted `url_ids` form
values are parsed to ObjectIds, unparseable entries silently dropped
(modelled as `none` entries), and every url whose `_id` is among the parsed
ids is deleted. -/
def batch_delete_urls (store : List ShortUrl)
    (url_ids : Option (List (Option Nat))) : List ShortUrl :=
  let ids := (url_ids.getD []).filterMap (fun x => x)
  if ids.isEmpty then store
  else store.filter (fun r => !ids.contains r.id)

/-- Request-level behaviour of `POST /admin/urls/batch-delete`: no
authentication dependency is declared; the cookie is never consulted. -/
def serve_batch_delete_urls (cred : Option String) (store : List ShortUrl)
    (url_ids : Option (List (Option Nat))) : List ShortUrl :=
  batch_delete_urls store url_ids

/-- Body of `delete_url` (admin/router.py): fetch the url by `_id` and, when
found, delete it. -/
def delete_url (store : List ShortUrl) (url_id : Nat) : List ShortUrl :=
  match store.find? (fun r => r.id == url_id) with
  | none => store
  | some u => store.filter (fun x => !(x == u))

/-- Request-level behaviour of `POST /admin/urls/delete/...`: no
authentication dependency is declared; the cookie is never consulted. -/
def serve_delete_url (cred : Option String) (store : List ShortUrl)
    (url_id : Nat) : List ShortUrl :=
  delete_url store url_id

/-- Body of `url_update` (admin/router.py): fetch the record by `ident`; when
absent redirect away leaving the store unchanged, otherwise apply
`url_update_record` and save (Beanie `save` replaces the document with the
matching `_id`). -/
def admin_url_update (store : List ShortUrl) (ident : String) (origin : String)
    (external_id : Option String) (expires_at : Option (Option Int)) :
    List ShortUrl :=
  match ShortUrl.get_by_ident store ident false 0 with
  | none => store
  | some s =>
    store.map (fun r =>
      if r.id == s.id then url_update_record s origin external_id expires_at
      else r)

/-- Request-level behaviour of `POST /admin/urls/...` (update): no
authentication dependency is declared; the cookie is never consulted. -/
def serve_admin_url_update (cred : Option String) (store : List ShortUrl)
    (ident : String) (origin : String) (external_id : Option String)
    (expires_at : Option (Option Int)) : List ShortUrl :=
  admin_url_update store ident origin external_id expires_at

/-! ## Concrete sample data for witnesses and counterexamples -/

/-- A sample stored user: id 1, active, not a superuser, no API key. -/
def sampleUser : User :=
  { id := 1, is_active := true, is_superuser := false, api_key := none }

/-- A sample stored user holding the static API key "goodkey". -/
def keyedUser : User :=
  { id := 1, is_active := true, is_superuser := false, api_key := some "goodkey" }

/-- The record `ShortUrl.shorten` builds for id 1, ident "abc-def",
origin "https://example.com/", no expiry, at time 0. -/
def sampleUrl : ShortUrl :=
  { id := 1, ident := "abc-def", external_id := none
    origin := "https://example.com/", views := 0, created_at := 0
    updated_at := none, expires_at := none, last_visit_at := none
    user_id := none }

/-- The same record with an expiry at time 100. -/
def sampleUrlExp : ShortUrl := { sampleUrl with expires_at := some 100 }

/-- The same record with an expiry at time 10 (already past at time 20). -/
def expiredUrl : ShortUrl := { sampleUrl with expires_at := some 10 }

/-! ## Claims -/

/-- Claim C1: refuted by the code as written.  The admin mutation handlers
(`delete_user`, `batch_delete_urls`, `delete_url`, `url_update`) declare no
authentication dependency, so a request carrying no admin-session credential
at all (`cred = none`) still performs the mutation and changes the stored
records - while the sibling read-only views all require
`get_current_admin_user`.  Evaluation at the failing inputs. -/
theorem admin_mutations_run_unauthenticated :
    serve_delete_user none [sampleUser] 1 = [] ∧ [sampleUser] ≠ [] ∧
    serve_batch_delete_urls none [sampleUrl] (some [some 1]) = [] ∧
    serve_delete_url none [sampleUrl] 1 = [] ∧ [sampleUrl] ≠ [] ∧
    (serve_admin_url_update none [sampleUrl] "abc-def" "https://evil.example/"
        none none).map ShortUrl.origin = ["https://evil.example/"] ∧
    [sampleUrl].map ShortUrl.origin ≠ ["https://evil.example/"] := by
  refine ⟨rfl, by decide, rfl, rfl, by decide, rfl, by decide⟩

/-- Claim C2, counterexample: a creation WITHOUT an expiry set, resolved by
the expiry-checked lookup before any expiry has passed, is NOT found - the
Mongo query `expires_at > now` does not match a null `expires_at` - so the
claim as stated fails for expiry-less records. -/
theorem shorten_resolve_no_expiry_cex :
    ShortUrl.shorten [] 1 "abc-def" "https://example.com/" none none none 0 =
      .ok (sampleUrl, [sampleUrl]) ∧
    ShortUrl.get_by_ident [sampleUrl] "abc-def" true 0 = none := by
  refine ⟨rfl, rfl⟩

/-- All elements of the left list failing the predicate, `find?` over an
append reduces to `find?` over the right list. -/
theorem find?_append_of_left_none {α : Type} {p : α → Bool} {l₁ l₂ : List α}
    (h : ∀ a ∈ l₁, p a = false) :
    (l₁ ++ l₂).find? p = l₂.find? p := by
  induction l₁ with
  | nil => rfl
  | cons a l ih =>
    have ha : p a = false := h a (List.mem_cons_self a l)
    simp only [List.cons_append, List.find?_cons, ha]
    exact ih fun x hx => h x (List.mem_cons_of_mem a hx)

/-- Claim C2, amended: for every creation input WITH an expiry set, the
record produced by `shorten` (when the insert succeeds), resolved by the
expiry-checked lookup before the expiry has passed, is found and its origin
equals the original url; without an expiry set the expiry-checked lookup does
not return the record. -/
theorem shorten_resolve_returns_origin (store : List ShortUrl) (id : Nat)
    (ident url : String) (ext : Option String) (uid : Option Nat)
    (t now now' : Int) (rec : ShortUrl) (store' : List ShortUrl)
    (hok : ShortUrl.shorten store id ident url ext (some t) uid now =
      .ok (rec, store'))
    (hfresh : now' < t) :
    ∃ r, ShortUrl.get_by_ident store' ident true now' = some r ∧
      r.origin = url := by
  unfold ShortUrl.shorten insertUrl at hok
  by_cases hc : (store.any (fun r => r.ident == ident)
      || (ext.isSome && store.any (fun r => r.external_id == ext))) = true
  · rw [if_pos hc] at hok
    exact absurd hok (by simp)
  · rw [if_neg hc] at hok
    have hany : store.any (fun r => r.ident == ident) = false := by
      cases h : store.any (fun r => r.ident == ident)
      · rfl
      · exact absurd (by rw [Bool.or_eq_true]; exact Or.inl h) hc
    have hnone : ∀ r ∈ store, (r.ident == ident) = false := by
      intro r hr
      cases h : (r.ident == ident)
      · rfl
      · have htrue : store.any (fun r => r.ident == ident) = true :=
          List.any_eq_true.mpr ⟨r, hr, h⟩
        rw [hany] at htrue
        simp at htrue
    rw [Except.ok.injEq, Prod.mk.injEq] at hok
    obtain ⟨h1, h2⟩ := hok
    subst h1
    subst h2
    refine ⟨{ id := id, ident := ident, external_id := ext, origin := url,
              views := 0, created_at := now, updated_at := none,
              expires_at := some t, last_visit_at := none, user_id := uid },
            ?_, rfl⟩
    unfold ShortUrl.get_by_ident
    rw [if_pos rfl]
    have hall : ∀ a ∈ store,
        ((a.ident == ident) && expiresAtGt a now') = false := by
      intro a ha
      rw [hnone a ha, Bool.false_and]
    rw [find?_append_of_left_none hall]
    simp [List.find?_cons, expiresAtGt, hfresh]

/-- Witness for the amended Claim C2 at a concrete input: shorten into an
empty store with expiry 100, resolve at time 50. -/
theorem shorten_resolve_returns_origin_witness :
    ∃ r, ShortUrl.get_by_ident [sampleUrlExp] "abc-def" true 50 = some r ∧
      r.origin = "https://example.com/" :=
  shorten_resolve_returns_origin [] 1 "abc-def" "https://example.com/" none
    none 100 0 50 sampleUrlExp [sampleUrlExp] rfl (by decide)

/-- Claim C3: refuted by the code as written (code bug).  Without an explicit
`expires_delta`, `create_access_token` computes
`timedelta(ACCESS_TOKEN_EXPIRE_MINUTES)` - the setting (1440, meant as
minutes, "= 1 day" per its own comment) is passed to `timedelta`'s DAYS
position, so the embedded `exp` is issuance + 1440 days (124416000 seconds),
not issuance + 24 hours (86400 seconds). -/
theorem default_token_expiry_is_1440_days :
    create_access_token_exp 0 none = 1440 * 86400 ∧
      (1440 * 86400 : Int) ≠ 24 * 3600 := by
  refine ⟨rfl, by decide⟩

/-- Claim C4: a stored record whose `expires_at` is set and already past is
not returned by the expiry-checked lookup, although it is still physically
present in the store (the `ident` uniqueness hypothesis mirrors the unique
index on `ident`). -/
theorem get_by_ident_expired_none (store : List ShortUrl) (ident : String)
    (now t : Int) (rec : ShortUrl)
    (hmem : rec ∈ store) (hid : rec.ident = ident)
    (hexp : rec.expires_at = some t) (hpast : t ≤ now)
    (huniq : ∀ r ∈ store, r.ident = ident → r = rec) :
    ShortUrl.get_by_ident store ident true now = none := by
  unfold ShortUrl.get_by_ident
  rw [if_pos rfl]
  rw [List.find?_eq_none]
  intro r hr
  cases h : (r.ident == ident)
  · simp [h]
  · have : r = rec := huniq r hr (by simpa using h)
    subst this
    simp [h, expiresAtGt, hexp, not_lt.mpr hpast]

/-- Witness for Claim C4: a store holding one record with ident "abc-def"
expired at time 10, looked up at time 20. -/
theorem get_by_ident_expired_none_witness :
    ShortUrl.get_by_ident [expiredUrl] "abc-def" true 20 = none :=
  get_by_ident_expired_none [expiredUrl] "abc-def" 20 10 expiredUrl
    (by simp) rfl rfl (by decide)
    (fun r hr _ => by simpa using hr)

/-- Claim C5: refuted by the code as written (the spec itself - its open
question in §9 - records that the correct behaviour is a bounded retry and
the source's behaviour a defect).  `shorten` wraps its single insert in no
retry: a store already holding ident "abc-def", with the generator producing
"abc-def" again, surfaces the duplicate-key error to the caller on the first
collision. -/
theorem shorten_collision_surfaces_error :
    ShortUrl.shorten [sampleUrl] 2 "abc-def" "https://other.example/"
      none none none 5 = .error () := by
  rfl

/-- Claim C6: when a non-empty API key header is present the bearer token is
never consulted: an API key matching no principal yields the invalid-API-key
failure even when the token decodes to a subject that matches a stored
principal. -/
theorem api_key_precedence_over_bearer (users : List User)
    (decode : String → Option Nat) (k tok : String) (sub : Nat) (w : User)
    (hk : ¬k = "")
    (hno : User.get_by_api_key users k = none)
    (htok : decode tok = some sub)
    (hw : User.get users sub = some w) :
    get_current_user users decode (some k) (some tok) = .invalidApiKey := by
  unfold get_current_user
  have hne : (some k == some "") = false := by
    simp [hk]
  simp only [hne, Bool.false_eq_true, if_false, hno]

/-- Witness for Claim C6: store with one keyed user; wrong API key "badkey"
together with a token decoding to that user's id still fails as invalid API
key. -/
theorem api_key_precedence_over_bearer_witness :
    get_current_user [keyedUser] (fun _ => some 1) (some "badkey")
      (some "tok") = .invalidApiKey :=
  api_key_precedence_over_bearer [keyedUser] (fun _ => some 1) "badkey" "tok"
    1 keyedUser (by decide) (by decide) rfl (by decide)

/-- Claim C7: the resolver's failure taxonomy.  Supplying neither credential
is "Not authenticated"; a non-empty API key matching no principal is
"Invalid API key" (whatever bearer token accompanies it); a decoded bearer
token whose subject matches no stored principal is "User not found"; and the
three outcomes are pairwise distinct. -/
theorem resolver_failure_taxonomy :
    (∀ (users : List User) (decode : String → Option Nat),
      get_current_user users decode none none = .notAuthenticated) ∧
    (∀ (users : List User) (decode : String → Option Nat) (k : String)
        (tok : Option String), ¬k = "" →
      User.get_by_api_key users k = none →
      get_current_user users decode (some k) tok = .invalidApiKey) ∧
    (∀ (users : List User) (decode : String → Option Nat) (tok : String)
        (sub : Nat), ¬tok = "" →
      decode tok = some sub →
      User.get users sub = none →
      get_current_user users decode none (some tok) = .userNotFound) ∧
    (AuthResult.notAuthenticated ≠ AuthResult.invalidApiKey ∧
      AuthResult.notAuthenticated ≠ AuthResult.userNotFound ∧
      AuthResult.invalidApiKey ≠ AuthResult.userNotFound) := by
  refine ⟨fun users decode => rfl, ?_, ?_, by decide, by decide, by decide⟩
  · intro users decode k tok hk hno
    unfold get_current_user
    have hne : (some k == some "") = false := by simp [hk]
    simp only [hne, Bool.false_eq_true, if_false, hno]
  · intro users decode tok sub htok hdec hno
    unfold get_current_user authenticate_bearer_token
    have hne : (some tok == some "") = false := by simp [htok]
    simp [hne, hdec, hno]

/-- Witness for Claim C7: the three failure cases at concrete inputs. -/
theorem resolver_failure_taxonomy_witness :
    get_current_user [] (fun _ => none) none none =
      AuthResult.notAuthenticated ∧
    get_current_user [] (fun _ => none) (some "k") none =
      AuthResult.invalidApiKey ∧
    get_current_user [] (fun _ => some 7) none (some "t") =
      AuthResult.userNotFound :=
  ⟨resolver_failure_taxonomy.1 [] (fun _ => none),
   resolver_failure_taxonomy.2.1 [] (fun _ => none) "k" none (by decide) rfl,
   resolver_failure_taxonomy.2.2.1 [] (fun _ => some 7) "t" 7 (by decide)
     rfl rfl⟩

/-- Claim C8, counterexample: the admin `url_update` handler mutates `origin`
yet leaves `updated_at` untouched (here: still unset), so it is not an
operation that "sets updated_at to the time of the mutation". -/
theorem admin_url_update_no_updated_at_cex :
    (url_update_record sampleUrl "https://b.example/" none none).origin =
      "https://b.example/" ∧
    sampleUrl.origin ≠ "https://b.example/" ∧
    (url_update_record sampleUrl "https://b.example/" none none).updated_at =
      none := by
  refine ⟨rfl, by decide, rfl⟩

/-- Claim C8, amended: the API update operations
(`SuperuserViews._update_short_url`, behind both the by-ident and the
by-external-id routes) set `updated_at` to the mutation time, but the admin
`url_update` operation never modifies `updated_at`. -/
theorem updated_at_on_mutation_amended :
    (∀ (s : ShortUrl) (url : Option String) (ext : Option (Option String))
        (exp : Option (Option Int)) (now : Int),
      (update_short_url s url ext exp now).updated_at = some now) ∧
    (∀ (s : ShortUrl) (origin : String) (ext : Option String)
        (exp : Option (Option Int)),
      (url_update_record s origin ext exp).updated_at = s.updated_at) := by
  constructor
  · intro s url ext exp now
    cases url <;> cases ext <;> cases exp <;> rfl
  · intro s origin ext exp
    rcases exp with _ | _ | t <;> rfl

/-- `visitMany` adds one view per visit time. -/
theorem visitMany_views (times : List Int) (s : ShortUrl) :
    (ShortUrl.visitMany s times).views = s.views + times.length := by
  induction times generalizing s with
  | nil => rfl
  | cons a l ih =>
    show (ShortUrl.visitMany (s.visit a) l).views = s.views + (l.length + 1)
    rw [ih (s.visit a)]
    show s.views + 1 + l.length = s.views + (l.length + 1)
    omega

/-- Claim C9: a record produced by `shorten` has `views = 0`, each `visit`
adds exactly 1, and after N visits a fresh record's counter is exactly N. -/
theorem views_counter_exact :
    (∀ (store : List ShortUrl) (id : Nat) (ident url : String)
        (ext : Option String) (exp : Option Int) (uid : Option Nat)
        (now : Int) (rec : ShortUrl) (store' : List ShortUrl),
      ShortUrl.shorten store id ident url ext exp uid now = .ok (rec, store') →
      rec.views = 0 ∧
        ∀ times : List Int,
          (ShortUrl.visitMany rec times).views = times.length) ∧
    (∀ (s : ShortUrl) (now : Int), (ShortUrl.visit s now).views = s.views + 1) := by
  constructor
  · intro store id ident url ext exp uid now rec store' hok
    unfold ShortUrl.shorten insertUrl at hok
    split at hok
    · exact absurd hok (by simp)
    · rw [Except.ok.injEq, Prod.mk.injEq] at hok
      obtain ⟨h1, _⟩ := hok
      subst h1
      exact ⟨rfl, fun times => by rw [visitMany_views]; simp⟩
  · intro s now
    rfl

/-- Witness for Claim C9: the concrete record shortened into an empty store
has 0 views, and exactly 3 after three visits. -/
theorem views_counter_exact_witness :
    sampleUrl.views = 0 ∧
      (ShortUrl.visitMany sampleUrl [1, 2, 3]).views = 3 :=
  ⟨(views_counter_exact.1 [] 1 "abc-def" "https://example.com/" none none
      none 0 sampleUrl [sampleUrl] rfl).1,
   (views_counter_exact.1 [] 1 "abc-def" "https://example.com/" none none
      none 0 sampleUrl [sampleUrl] rfl).2 [1, 2, 3]⟩

/-- Claim C10: `visit` changes only `views` and `last_visit_at`; the
identifier, origin, external id, timestamps of creation/update/expiry and the
owner are untouched. -/
theorem visit_frame (s : ShortUrl) (now : Int) :
    (ShortUrl.visit s now).ident = s.ident ∧
    (ShortUrl.visit s now).origin = s.origin ∧
    (ShortUrl.visit s now).external_id = s.external_id ∧
    (ShortUrl.visit s now).created_at = s.created_at ∧
    (ShortUrl.visit s now).updated_at = s.updated_at ∧
    (ShortUrl.visit s now).expires_at = s.expires_at ∧
    (ShortUrl.visit s now).user_id = s.user_id ∧
    (ShortUrl.visit s now).id = s.id :=
  ⟨rfl, rfl, rfl, rfl, rfl, rfl, rfl, rfl⟩

end Shortify

